import Mathlib

/-!
Shallow embedding of the price-monitoring engine of the
`smart-price-monitor` repository (a Telegram price-tracker bot).

Sources embedded here:
  * `src/@helpers/helpers.js` — extraction pipeline (`pipeline`,
    `getAmazonPrice`, `fetchPrice`) and the store operations
    (`removeFromWatchlist`, `clearAll`, `updateWatchlist`, `addToWatchlist`);
  * `src/@cron/schedule.js` — the polling firing (`schedulePriceChecks`
    callback body, `taskFunction`, `prePriceCheck`);
  * `src/@commands/commands.js` — the conversation state machine
    (`listenToMessages`, `handleUserStateForAddCommand`,
    `handleUserStateForRemoveCommand`, `addCommand`).

Modelling conventions:
  * JavaScript numbers reaching the price path are either `NaN` or integral
    (the extractor strips every `,` and `.` before calling `parseFloat`, so
    no fractional literal can be produced); they are modelled as
    `Option Int`, with `none` standing for `NaN`.
  * Network fetch (`axios.get`) and the selector registry
    (`classSelectors`, from `src/constants.js`) are passed in as explicit
    parameters: the engine's behaviour is quantified over them.
  * A loaded cheerio document is modelled as `Markup`: a map from a
    selector string to the list of texts of matching elements, in document
    order; `$(sel).first().text()` is its head, `""` when no match.
  * Thrown JS exceptions are modelled with `Except String`.
  * The SQLite table `price_tracker` is modelled as a `List Item` of rows;
    `DELETE ... WHERE` is row filtering, `result.changes` the number of
    rows matching the `WHERE` clause.
-/

/-- Characters removed by JavaScript `String.prototype.trim` (whitespace
model restricted to the common ASCII whitespace characters). -/
def isJsSpace (c : Char) : Bool :=
  c = ' ' || c = '\t' || c = '\n' || c = '\r'

/-- Model of JavaScript `text.trim()`. -/
def jsTrim (s : String) : String :=
  String.mk (((s.toList.dropWhile isJsSpace).reverse.dropWhile isJsSpace).reverse)

/-- Helper for `jsSplitDash`: splits a character list at every `-`. -/
def splitOnDashAux : List Char → List Char → List (List Char)
  | [], acc => [acc.reverse]
  | c :: cs, acc =>
      if c = '-' then acc.reverse :: splitOnDashAux cs []
      else splitOnDashAux cs (c :: acc)

/-- Model of JavaScript `text.split("-")`: splits at every occurrence of
`-`; the result is never empty (`"".split("-")` is `[""]`). -/
def jsSplitDash (s : String) : List String :=
  (splitOnDashAux s.toList []).map (fun cs => String.mk cs)

/-- Model of the `.replace(/[,.]/g, "")` call in `getAmazonPrice`:
removes every `,` and `.` character. -/
def stripCommaDot (s : String) : String :=
  String.mk (s.toList.filter (fun c => !(c = ',' || c = '.')))

/-- Numeric value of a digit string (most significant first). -/
def digitsVal (ds : List Char) : Nat :=
  ds.foldl (fun n c => n * 10 + (c.toNat - 48)) 0

/-- Model of JavaScript `parseFloat` on the strings this code feeds it:
skip leading whitespace, read an optional sign and then a maximal run of
decimal digits. `none` models `NaN` (no digits found). The inputs at the
call site have had every `,` and `.` removed, so no fractional part can
occur; exponent forms and `Infinity` are outside the modelled fragment. -/
def jsParseFloat (s : String) : Option Int :=
  let cs := s.toList.dropWhile isJsSpace
  let signAndRest : Int × List Char :=
    match cs with
    | c :: rest => if c = '-' then (-1, rest) else if c = '+' then (1, rest) else (1, cs)
    | [] => (1, [])
  let ds := signAndRest.2.takeWhile (fun c => c.isDigit)
  if ds.isEmpty then none
  else some (signAndRest.1 * Int.ofNat (digitsVal ds))

/-- Per-site selector pair, one entry of the `classSelectors` table
(`src/constants.js`). -/
structure SelectorSpec where
  price : String
  currency : String
deriving DecidableEq

/-- A loaded cheerio document: `select sel` is the list of texts of the
elements matching selector string `sel`, in document order. -/
structure Markup where
  select : String → List String

/-- Ephemeral price reading `{ price, currencyText }` as returned by the
extractors; `price` is `none` when `parseFloat` produced `NaN`. -/
structure Reading where
  price : Option Int
  currencyText : String
deriving DecidableEq

/-- Model of `$(sel).first().text()`: the text of the first matching
element, `""` when nothing matches. -/
def firstText (m : Markup) (sel : String) : String :=
  (m.select sel).headD ""

/-- Embedding of `getAmazonPrice(selector, $)` from
`src/@helpers/helpers.js`: initialize `price = 0.0` and
`currencyText = "₹"`, take the first price-selector match's text with
every `,` and `.` removed, unconditionally reassign `currencyText` to the
first currency-selector match's text, and parse the stripped price text
when it is non-empty. The shadowing `let`s mirror the source's
reassignments. -/
def getAmazonPrice (selector : SelectorSpec) (m : Markup) : Reading :=
  let price : Option Int := some 0
  let currencyText : String := "₹"
  let priceText : String := stripCommaDot (firstText m ("." ++ selector.price))
  let currencyText : String := firstText m ("." ++ selector.currency)
  let price : Option Int := if priceText = "" then price else jsParseFloat priceText
  { price := price, currencyText := currencyText }

/-- Embedding of `pipeline(site, selector, $)` from
`src/@helpers/helpers.js`: a closed switch over known site identifiers;
`"amazon"` dispatches to `getAmazonPrice`, every other identifier throws
`Error("Unsupported site")`. -/
def pipeline (site : String) (selector : SelectorSpec) (m : Markup) :
    Except String Reading :=
  if site = "amazon" then Except.ok (getAmazonPrice selector m)
  else Except.error "Unsupported site"

/-- Embedding of `fetchPrice(url, site)` from `src/@helpers/helpers.js`.
The network (`axios.get` + `cheerio.load`) is the explicit parameter
`web : url → Except String Markup`, and the `classSelectors` registry of
the (not shipped) `src/constants.js` is the explicit parameter
`selectors`. -/
def fetchPrice (web : String → Except String Markup)
    (selectors : String → SelectorSpec) (url site : String) :
    Except String Reading :=
  match web url with
  | Except.error e => Except.error e
  | Except.ok body => pipeline site (selectors site) body

/-- A row of the SQLite table `price_tracker` (`src/@database/sqlite.js`),
also the in-memory watchlist item handed to the polling task. -/
structure Item where
  id : Int
  chat_id : Int
  url : String
  site : String
  last_price : Int
  currency : String
deriving DecidableEq

/-- Observable effects of one run of `taskFunction` on one item:
`updated = some (p, c)` models the `updateWatchlist` store write with the
new price and currency, `notified` whether `prePriceCheck` sent a price
drop message. -/
structure TaskResult where
  updated : Option (Int × String)
  notified : Bool
deriving DecidableEq

/-- Embedding of `prePriceCheck(item, price, currency)` from
`src/@cron/schedule.js`: a notification is sent iff the new price is
strictly below the stored `item.last_price` (the in-memory item, read
before the store update). Returns whether the message was sent. -/
def prePriceCheck (item : Item) (price : Int) : Bool :=
  decide (price < item.last_price)

/-- Embedding of the body of `taskFunction(item)` from
`src/@cron/schedule.js`, applied to an already-fetched reading: the guard
`if (!price || price === item.last_price) return;` skips falsy prices
(`0` and `NaN`) and unchanged prices; otherwise `updateWatchlist` writes
the new price and currency and `prePriceCheck` decides the
notification. (`NaN === x` is false, but `NaN` is already falsy.) -/
def taskFunction (item : Item) (r : Reading) : TaskResult :=
  match r.price with
  | none => { updated := none, notified := false }
  | some p =>
      if p = 0 ∨ p = item.last_price then { updated := none, notified := false }
      else { updated := some (p, r.currencyText), notified := prePriceCheck item p }

/-- Applies a task's store write to the row it targeted, modelling the
`UPDATE price_tracker SET last_price = ?, currency = ? WHERE id = ?` of
`updateWatchlist` (`src/@helpers/helpers.js`) on that row. -/
def applyTaskResult (item : Item) (t : TaskResult) : Item :=
  match t.updated with
  | none => item
  | some (p, c) => { item with last_price := p, currency := c }

/-- Embedding of the whole `taskFunction(item)` including its
`try`/`catch`: the fetch outcome is the parameter; on a thrown fetch
error the `catch` logs it and re-throws `Error("Something went wrong.
Please try again.")`, so the error escapes the per-item task as the
wrapped message (`Except.error`). -/
def taskFunctionE (item : Item) (fetched : Except String Reading) :
    Except String TaskResult :=
  match fetched with
  | Except.error _ => Except.error "Something went wrong. Please try again."
  | Except.ok r => Except.ok (taskFunction item r)

/-- Embedding of one firing of the cron callback in `schedulePriceChecks`
(`src/@cron/schedule.js`): if the watchlist is empty the firing is a
no-op; otherwise `watchlist.forEach(async (item) => await
taskFunction(item))` launches every item's task independently of the
others (`forEach` never chains or awaits the returned promises), so the
firing's outcome is the list of each item's own `taskFunctionE` outcome. -/
def scheduleFiring (watchlist : List Item)
    (fetch : Item → Except String Reading) : List (Except String TaskResult) :=
  if watchlist.isEmpty then []
  else watchlist.map (fun item => taskFunctionE item (fetch item))

/-- The `WHERE chat_id = ? AND id = ?` predicate of `removeFromWatchlist`
(`src/@helpers/helpers.js`). -/
def rowMatchesRemove (chatId id : Int) (r : Item) : Bool :=
  r.chat_id == chatId && r.id == id

/-- Embedding of `removeFromWatchlist(chatId, id)`
(`src/@helpers/helpers.js`): `DELETE FROM price_tracker WHERE chat_id = ?
AND id = ?` over the table, returning the remaining table together with
`result.changes`, the number of deleted rows. -/
def removeFromWatchlist (db : List Item) (chatId id : Int) :
    List Item × Nat :=
  (db.filter (fun r => !(rowMatchesRemove chatId id r)),
   (db.filter (rowMatchesRemove chatId id)).length)

/-- Embedding of `clearAll(chatId)` (`src/@helpers/helpers.js`):
`DELETE FROM price_tracker WHERE chat_id = ?`, returning the remaining
table and `result.changes`. -/
def clearAll (db : List Item) (chatId : Int) : List Item × Nat :=
  (db.filter (fun r => !(r.chat_id == chatId)),
   (db.filter (fun r => r.chat_id == chatId)).length)

/-- Row inserted by `addToWatchlist(chatId, url, site, price, currency)`
(`src/@helpers/helpers.js`); `price` is the raw JS number from the
reading (possibly `NaN`, i.e. `none`). -/
structure InsertRow where
  chat_id : Int
  url : String
  site : String
  price : Option Int
  currency : String
deriving DecidableEq

/-- Embedding of `addCommand(chatId, url, site)`
(`src/@commands/commands.js`): fetch the price for `url` on `site`, then
insert `(chatId, url, site, price, currencyText)` into the watchlist. A
thrown fetch error propagates out. -/
def addCommand (web : String → Except String Markup)
    (selectors : String → SelectorSpec) (chatId : Int) (url site : String) :
    Except String InsertRow :=
  match fetchPrice web selectors url site with
  | Except.error e => Except.error e
  | Except.ok r =>
      Except.ok { chat_id := chatId, url := url, site := site,
                  price := r.price, currency := r.currencyText }

/-- Embedding of `handleUserStateForAddCommand(chatId, msg)`
(`src/@commands/commands.js`): trim the text, split it at every `-`; with
fewer than two parts send a format-error message and return normally
(`Except.ok none`); otherwise bind the local `site` to the trimmed first
part and the local `url` to the trimmed second part and call
`addCommand(chatId, site, url)` — note the call passes the local `site`
into `addCommand`'s `url` parameter and the local `url` into its `site`
parameter, exactly as in the source. `Except.ok (some row)` is a
completed add flow with its inserted row. -/
def handleUserStateForAddCommand (web : String → Except String Markup)
    (selectors : String → SelectorSpec) (chatId : Int) (text : String) :
    Except String (Option InsertRow) :=
  let parts := jsSplitDash (jsTrim text)
  if parts.length < 2 then Except.ok none
  else
    let site := jsTrim (parts.headD "")
    let url := jsTrim (parts.getD 1 "")
    match addCommand web selectors chatId site url with
    | Except.error e => Except.error e
    | Except.ok row => Except.ok (some row)

/-- The two pending-session steps stored in the `userStates` map
(`src/@commands/commands.js`): `awaiting_site_url` after `/add` with no
arguments, `awaiting_remove` after `/remove` with no arguments. -/
inductive Step where
  | awaiting_site_url
  | awaiting_remove
deriving DecidableEq

/-- Observable outcome of one `listenToMessages` call for one owner:
the owner's `userStates` entry afterwards, the row inserted by a
completed add flow, the remove invocation `(chatId, trimmed id text)` of
a remove flow, and the exception that escaped the handler, if any. -/
structure ListenResult where
  newState : Option Step
  inserted : Option InsertRow
  removed : Option (Int × String)
  threw : Option String
deriving DecidableEq

/-- Embedding of `listenToMessages(chatId, msg)`
(`src/@commands/commands.js`): with no pending session the message is
ignored; otherwise the pending step's handler runs, and only when it
returns without throwing does control reach the trailing
`delete userStates[chatId]` — an exception escapes first and leaves the
session in place. The remove handler (`handleUserStateForRemoveCommand`)
trims the text and runs the remove flow; it throws nothing in this model
(the store is not modelled as failing). -/
def listenToMessages (web : String → Except String Markup)
    (selectors : String → SelectorSpec) (chatId : Int)
    (state : Option Step) (text : String) : ListenResult :=
  match state with
  | none => { newState := none, inserted := none, removed := none, threw := none }
  | some Step.awaiting_site_url =>
      match handleUserStateForAddCommand web selectors chatId text with
      | Except.ok r =>
          { newState := none, inserted := r, removed := none, threw := none }
      | Except.error e =>
          { newState := some Step.awaiting_site_url, inserted := none,
            removed := none, threw := some e }
  | some Step.awaiting_remove =>
      { newState := none, inserted := none,
        removed := some (chatId, jsTrim text), threw := none }

/-- Selector pair used by the concrete test fixtures. -/
def sel0 : SelectorSpec := { price := "p", currency := "c" }

/-- Selector registry used by the concrete test fixtures. -/
def selTable0 : String → SelectorSpec := fun _ => sel0

/-- A document with no matching elements at all. -/
def mEmpty : Markup := { select := fun _ => [] }

/-- A network on which every URL serves the empty document. -/
def webOk : String → Except String Markup := fun _ => Except.ok mEmpty

/-- A document with price text `"99"` and currency text `"$"`. -/
def mAmz : Markup :=
  { select := fun s => if s = ".p" then ["99"] else if s = ".c" then ["$"] else [] }

/-- A network serving `mAmz` at URL `"A"` and failing everywhere else. -/
def web1 : String → Except String Markup :=
  fun u => if u = "A" then Except.ok mAmz else Except.error "network error"

/-- A document with price text `"123"` and no currency element. -/
def mNoCur : Markup := { select := fun s => if s = ".p" then ["123"] else [] }

/-- A document whose price text is the single character `","`. -/
def mComma : Markup := { select := fun s => if s = ".p" then [","] else [] }

/-- A document with price text `"1,299.00"` and currency text `"$"`. -/
def mThousand : Markup :=
  { select := fun s => if s = ".p" then ["1,299.00"] else if s = ".c" then ["$"] else [] }

/-- A stored watchlist item with `last_price = 100`. -/
def itemW : Item :=
  { id := 1, chat_id := 10, url := "urlW", site := "amazon",
    last_price := 100, currency := "$" }

/-- C6: on a document whose currency selector matches nothing,
`getAmazonPrice` returns `""` as the currency label, not the fixed
fallback symbol `"₹"`: the initialization of `currencyText` to the
fallback is unconditionally overwritten by the (empty) selector text, so
the documented fallback is dead code. -/
theorem currency_fallback_overwritten :
    (getAmazonPrice sel0 mNoCur).currencyText = "" ∧
    mNoCur.select ("." ++ sel0.currency) = [] ∧
    ("" : String) ≠ "₹" := by
  refine ⟨rfl, rfl, by decide⟩

/-- C7 counterexample: a markup whose first price-selector match has the
non-empty text `","` refutes the claim as stated: stripping `,` and `.`
leaves the empty string, whose parse is `NaN` (`none`), yet the extracted
price is the default `0`, not the parse of the remainder. -/
theorem punctuation_only_price_text :
    firstText mComma ("." ++ sel0.price) ≠ "" ∧
    (getAmazonPrice sel0 mComma).price = some 0 ∧
    jsParseFloat (stripCommaDot (firstText mComma ("." ++ sel0.price))) = none ∧
    (getAmazonPrice sel0 mComma).price ≠
      jsParseFloat (stripCommaDot (firstText mComma ("." ++ sel0.price))) := by
  refine ⟨by decide, rfl, by decide, by decide⟩

/-- C7 (amended): whenever the first price-selector match's text still
contains a character other than `,` and `.` (so the stripped remainder is
non-empty), the extracted price is exactly the parse of the text with
every `,` and `.` removed; in particular price text `"1,299.00"` strips
to `"129900"` and parses to the price `129900`, not a decimal `1299`. -/
theorem strip_then_parse_price (sel : SelectorSpec) (m : Markup)
    (h : stripCommaDot (firstText m ("." ++ sel.price)) ≠ "") :
    (getAmazonPrice sel m).price =
      jsParseFloat (stripCommaDot (firstText m ("." ++ sel.price))) ∧
    stripCommaDot "1,299.00" = "129900" ∧
    jsParseFloat "129900" = some 129900 := by
  refine ⟨?_, by decide, by decide⟩
  simp only [getAmazonPrice, if_neg h]

/-- Witness for C7's theorem on a document whose price text is
`"1,299.00"`: its extracted price is the parse of the stripped text,
which evaluates to `129900`. -/
theorem strip_then_parse_price_witness :
    ((getAmazonPrice sel0 mThousand).price =
       jsParseFloat (stripCommaDot (firstText mThousand ("." ++ sel0.price))) ∧
     stripCommaDot "1,299.00" = "129900" ∧
     jsParseFloat "129900" = some 129900) ∧
    (getAmazonPrice sel0 mThousand).price = some 129900 :=
  ⟨strip_then_parse_price sel0 mThousand (by decide), rfl⟩

/-- C8: dispatch is a closed switch: every site identifier other than
`"amazon"` makes `pipeline` throw `Error("Unsupported site")` on every
markup and selector pair, never returning a reading. -/
theorem unsupported_site_hard_error (site : String) (sel : SelectorSpec)
    (m : Markup) (h : site ≠ "amazon") :
    pipeline site sel m = Except.error "Unsupported site" := by
  simp [pipeline, h]

/-- Witness for C8's theorem at the unregistered site `"ebay"`. -/
theorem unsupported_site_hard_error_witness :
    pipeline "ebay" sel0 mEmpty = Except.error "Unsupported site" :=
  unsupported_site_hard_error "ebay" sel0 mEmpty (by decide)

/-- C1 counterexample: a freshly extracted price of `0` differs from the
stored `last_price = 100`, yet `taskFunction` performs no store update:
the guard `if (!price || ...)` treats the falsy price `0` as "no price
change" and returns before `updateWatchlist`. -/
theorem zero_price_not_persisted :
    (taskFunction itemW { price := some 0, currencyText := "$" }).updated = none ∧
    ({ price := some 0, currencyText := "$" } : Reading).price ≠
      some itemW.last_price := by
  refine ⟨rfl, by decide⟩

/-- C1 (amended): the polling task persists the new price whenever it is
non-zero (and parsed to a number at all) and differs from the stored
`last_price`; a reading whose price is `0` is skipped as if unchanged. -/
theorem updatePrice_on_nonzero_changed_price (item : Item) (r : Reading)
    (p : Int) (hp : r.price = some p) (h0 : p ≠ 0)
    (hne : p ≠ item.last_price) :
    (taskFunction item r).updated = some (p, r.currencyText) := by
  simp [taskFunction, hp, h0, hne]

/-- Witness for C1's amended theorem: a drop from `100` to `90` is
written to the store with its currency. -/
theorem updatePrice_on_nonzero_changed_price_witness :
    (taskFunction itemW { price := some 90, currencyText := "€" }).updated =
      some (90, ({ price := some 90, currencyText := "€" } : Reading).currencyText) :=
  updatePrice_on_nonzero_changed_price itemW
    { price := some 90, currencyText := "€" } 90 rfl (by decide) (by decide)

/-- C2 counterexample: a freshly extracted price of `0` is strictly less
than the stored `last_price = 100`, yet no notification is sent: the
falsy-price guard returns before `prePriceCheck` runs, refuting the
claimed "if and only if". -/
theorem zero_drop_not_notified :
    (taskFunction itemW { price := some 0, currencyText := "$" }).notified = false ∧
    (0 : Int) < itemW.last_price := by
  refine ⟨rfl, by decide⟩

/-- C2 (amended): given a reading whose price parsed to a number `p`, a
notification is sent iff `p` is non-zero and strictly less than the
stored `last_price`; a non-zero price increase is persisted with no
notification. -/
theorem notify_iff_nonzero_strict_drop (item : Item) (r : Reading)
    (p : Int) (hp : r.price = some p) :
    ((taskFunction item r).notified = true ↔
      (p ≠ 0 ∧ p < item.last_price)) ∧
    (p ≠ 0 → item.last_price < p →
      taskFunction item r =
        { updated := some (p, r.currencyText), notified := false }) := by
  constructor
  · by_cases h0 : p = 0
    · subst h0
      simp [taskFunction, hp]
    · by_cases he : p = item.last_price
      · subst he
        simp [taskFunction, hp]
      · simp [taskFunction, hp, h0, he, prePriceCheck]
  · intro h0 hgt
    have hne : p ≠ item.last_price := by omega
    have hnlt : ¬ p < item.last_price := by omega
    simp [taskFunction, hp, h0, hne, prePriceCheck, hnlt]

/-- Witness for C2's amended theorem at a drop from `100` to `90`: the
notification condition evaluates to a true iff. -/
theorem notify_iff_nonzero_strict_drop_witness :
    ((taskFunction itemW { price := some 90, currencyText := "$" }).notified = true ↔
      ((90 : Int) ≠ 0 ∧ (90 : Int) < itemW.last_price)) ∧
    ((90 : Int) ≠ 0 → itemW.last_price < 90 →
      taskFunction itemW { price := some 90, currencyText := "$" } =
        { updated := some (90, ({ price := some 90, currencyText := "$" } : Reading).currencyText),
          notified := false }) :=
  notify_iff_nonzero_strict_drop itemW { price := some 90, currencyText := "$" } 90 rfl

/-- C9: a reading whose price equals the stored `last_price` produces no
store write and no notification, and running the polling task a second
time on the item as left by the first run, with the same reading (no
underlying page change), always produces no store write and no
notification. -/
theorem unchanged_price_idempotent (item : Item) (r : Reading) :
    (r.price = some item.last_price →
      taskFunction item r = { updated := none, notified := false }) ∧
    taskFunction (applyTaskResult item (taskFunction item r)) r =
      { updated := none, notified := false } := by
  constructor
  · intro h
    simp [taskFunction, h]
  · match hr : r.price with
    | none => simp [taskFunction, hr, applyTaskResult]
    | some p =>
      by_cases hc : p = 0 ∨ p = item.last_price
      · simp [taskFunction, hr, hc, applyTaskResult]
      · push_neg at hc
        simp [taskFunction, hr, hc.1, hc.2, applyTaskResult]

/-- Witness for C9's theorem: with `last_price = 100` and a reading of
`100`, the first run is a no-op, and so is the re-run on the item it
left behind. -/
theorem unchanged_price_idempotent_witness :
    taskFunction itemW { price := some 100, currencyText := "$" } =
      { updated := none, notified := false } ∧
    taskFunction
      (applyTaskResult itemW
        (taskFunction itemW { price := some 100, currencyText := "$" }))
      { price := some 100, currencyText := "$" } =
      { updated := none, notified := false } :=
  ⟨(unchanged_price_idempotent itemW { price := some 100, currencyText := "$" }).1 rfl,
   (unchanged_price_idempotent itemW { price := some 100, currencyText := "$" }).2⟩

/-- First item of the 3-item firing fixture. -/
def itemA : Item :=
  { id := 1, chat_id := 10, url := "uA", site := "amazon",
    last_price := 100, currency := "$" }

/-- Second item of the 3-item firing fixture (its fetch will throw). -/
def itemB : Item :=
  { id := 2, chat_id := 11, url := "uB", site := "amazon",
    last_price := 100, currency := "$" }

/-- Third item of the 3-item firing fixture. -/
def itemC : Item :=
  { id := 3, chat_id := 12, url := "uC", site := "amazon",
    last_price := 100, currency := "$" }

/-- A fetch on which item 2 throws a network error and every other item
yields a fresh reading of `50`. -/
def fetchItem2Fails : Item → Except String Reading :=
  fun it =>
    if it.id = 2 then Except.error "network error"
    else Except.ok { price := some 50, currencyText := "$" }

/-- C3: over a 3-item watchlist where item 2's fetch throws, the firing
still processes items 1 and 3 and persists their drops to `50` (with
notifications), because `forEach` launches each item's task
independently; but item 2's failure is not merely logged — after logging
it, `taskFunction`'s `catch` re-throws `Error("Something went wrong.
Please try again.")`, which escapes the unawaited per-item callback as
an unhandled rejection instead of being contained. -/
theorem firing_processes_siblings_and_rethrows :
    scheduleFiring [itemA, itemB, itemC] fetchItem2Fails =
      [Except.ok { updated := some (50, "$"), notified := true },
       Except.error "Something went wrong. Please try again.",
       Except.ok { updated := some (50, "$"), notified := true }] := by
  rfl

/-- C4 counterexample: with a pending add session, the message
`"x - ebay"` is well-formed but its add flow throws (`"ebay"` is an
unsupported site), so `listenToMessages` propagates the exception before
reaching `delete userStates[chatId]` and the owner's session survives
instead of returning to NONE. -/
theorem failed_flow_keeps_session :
    (listenToMessages webOk selTable0 7 (some Step.awaiting_site_url) "x - ebay").newState =
      some Step.awaiting_site_url ∧
    (listenToMessages webOk selTable0 7 (some Step.awaiting_site_url) "x - ebay").threw =
      some "Unsupported site" ∧
    some Step.awaiting_site_url ≠ (none : Option Step) := by
  refine ⟨rfl, rfl, by decide⟩

/-- C4 (amended): the next inbound free-text message consumes the
owner's pending session exactly when its handler returns without
throwing — in particular a malformed add payload (no `-` separator)
still clears it — but when the triggered flow throws, the exception
escapes before the `delete` and the session is left pending. -/
theorem session_consumed_unless_throw (web : String → Except String Markup)
    (sel : String → SelectorSpec) (chatId : Int) (state : Option Step)
    (text : String) :
    ((listenToMessages web sel chatId state text).threw = none →
      (listenToMessages web sel chatId state text).newState = none) ∧
    (∀ e, (listenToMessages web sel chatId state text).threw = some e →
      (listenToMessages web sel chatId state text).newState = state) ∧
    (state = some Step.awaiting_site_url →
      (jsSplitDash (jsTrim text)).length < 2 →
      (listenToMessages web sel chatId state text).newState = none ∧
      (listenToMessages web sel chatId state text).threw = none) := by
  match state with
  | none => simp [listenToMessages]
  | some Step.awaiting_remove => simp [listenToMessages]
  | some Step.awaiting_site_url =>
    match h : handleUserStateForAddCommand web sel chatId text with
    | Except.ok r => simp [listenToMessages, h]
    | Except.error e =>
      refine ⟨by simp [listenToMessages, h], by simp [listenToMessages, h], ?_⟩
      intro _ h2
      exfalso
      rw [handleUserStateForAddCommand] at h
      simp only [if_pos h2] at h
      exact Except.noConfusion h

/-- Witness for C4's theorem: a pending add session plus the malformed
message `"garbage"` (no separator) ends with the session cleared and
nothing thrown. -/
theorem session_consumed_unless_throw_witness :
    (listenToMessages webOk selTable0 7 (some Step.awaiting_site_url) "garbage").newState = none ∧
    (listenToMessages webOk selTable0 7 (some Step.awaiting_site_url) "garbage").threw = none :=
  (session_consumed_unless_throw webOk selTable0 7
    (some Step.awaiting_site_url) "garbage").2.2 rfl (by decide)

/-- The row which the guided add flow inserts for the message
`"A - amazon"` over the fixture network `web1`. -/
def rowA5 : InsertRow :=
  { chat_id := 5, url := "A", site := "amazon", price := some 99, currency := "$" }

/-- C5 counterexample: for the awaiting-add message `"A - amazon"`, the
flow fetches the field before the separator (`"A"`, the only URL `web1`
serves) and inserts it as the row's `url`, while the field after the
separator becomes the row's `site` — the claim's assignment (before
field = site identifier, after field = URL) is the opposite. -/
theorem guided_add_site_after_separator :
    handleUserStateForAddCommand web1 selTable0 5 "A - amazon" =
      Except.ok (some rowA5) ∧
    rowA5.url = "A" ∧ rowA5.site = "amazon" ∧ rowA5.site ≠ "A" := by
  refine ⟨rfl, rfl, rfl, by decide⟩

/-- C5 (amended): for every awaiting-add message containing the
separator, the trimmed field before the first `-` is used as the product
URL (it is the URL the network is asked for and the `url` of any
inserted row) and the trimmed field after it as the site identifier —
the effective order is `<url> - <site>`, matching the prompt, although
the handler's local variable names are swapped. -/
theorem guided_add_field_binding (web : String → Except String Markup)
    (sel : String → SelectorSpec) (chatId : Int) (text : String)
    (h : 2 ≤ (jsSplitDash (jsTrim text)).length) :
    (∀ row, handleUserStateForAddCommand web sel chatId text = Except.ok (some row) →
      row.url = jsTrim ((jsSplitDash (jsTrim text)).headD "") ∧
      row.site = jsTrim ((jsSplitDash (jsTrim text)).getD 1 "") ∧
      row.chat_id = chatId) ∧
    (∀ e, web (jsTrim ((jsSplitDash (jsTrim text)).headD "")) = Except.error e →
      handleUserStateForAddCommand web sel chatId text = Except.error e) := by
  have hn : ¬ (jsSplitDash (jsTrim text)).length < 2 := by omega
  constructor
  · intro row hrow
    rw [handleUserStateForAddCommand] at hrow
    simp only [if_neg hn] at hrow
    split at hrow
    · exact Except.noConfusion hrow
    · rename_i row' heq
      injection hrow with h1
      injection h1 with h2
      subst h2
      rw [addCommand] at heq
      split at heq
      · exact Except.noConfusion heq
      · injection heq with h3
        subst h3
        exact ⟨rfl, rfl, rfl⟩
  · intro e hw
    rw [handleUserStateForAddCommand]
    simp only [if_neg hn]
    rw [addCommand, fetchPrice, hw]

/-- Witness for C5's theorem at the message `"A - amazon"`: the inserted
row's `url` is the trimmed before-separator field `"A"` and its `site`
the trimmed after-separator field `"amazon"`. -/
theorem guided_add_field_binding_witness :
    rowA5.url = jsTrim ((jsSplitDash (jsTrim "A - amazon")).headD "") ∧
    rowA5.site = jsTrim ((jsSplitDash (jsTrim "A - amazon")).getD 1 "") ∧
    rowA5.chat_id = 5 :=
  (guided_add_field_binding web1 selTable0 5 "A - amazon" (by decide)).1 rowA5 rfl

/-- A filtered list and its complement partition the original list's
length: the number of rows a `DELETE` keeps plus the number it deletes
is the table's size. -/
theorem filter_partition_length {α : Type} (p : α → Bool) (l : List α) :
    (l.filter p).length + (l.filter (fun a => !(p a))).length = l.length := by
  induction l with
  | nil => rfl
  | cons a t ih =>
    by_cases h : p a <;> simp [List.filter_cons, h] <;> omega

/-- Fixture row belonging to owner `1`. -/
def rowOwn1 : Item :=
  { id := 10, chat_id := 1, url := "u1", site := "amazon",
    last_price := 5, currency := "$" }

/-- Fixture row belonging to owner `2`. -/
def rowOwn2 : Item :=
  { id := 11, chat_id := 2, url := "u2", site := "amazon",
    last_price := 6, currency := "$" }

/-- C10: `removeFromWatchlist db owner id` keeps exactly the rows not
matching `chat_id = owner AND id = id` (so it deletes at most the
caller's own item) and its `changes` count plus the kept rows' count is
the table size; `clearAll db owner` keeps exactly the rows of other
owners with the analogous count; and every row belonging to a different
owner survives both operations. -/
theorem delete_ops_frame (db : List Item) (owner id : Int) :
    (∀ r, r ∈ (removeFromWatchlist db owner id).1 ↔
        (r ∈ db ∧ ¬(r.chat_id = owner ∧ r.id = id))) ∧
    (removeFromWatchlist db owner id).2 +
        ((removeFromWatchlist db owner id).1).length = db.length ∧
    (∀ r, r ∈ (clearAll db owner).1 ↔ (r ∈ db ∧ r.chat_id ≠ owner)) ∧
    (clearAll db owner).2 + ((clearAll db owner).1).length = db.length ∧
    (∀ r, r.chat_id ≠ owner →
        ((r ∈ (removeFromWatchlist db owner id).1 ↔ r ∈ db) ∧
         (r ∈ (clearAll db owner).1 ↔ r ∈ db))) := by
  refine ⟨?_, ?_, ?_, ?_, ?_⟩
  · intro r
    simp [removeFromWatchlist, rowMatchesRemove, List.mem_filter]
    tauto
  · exact filter_partition_length (rowMatchesRemove owner id) db
  · intro r
    simp [clearAll, List.mem_filter]
  · exact filter_partition_length (fun r => r.chat_id == owner) db
  · intro r h
    constructor
    · simp [removeFromWatchlist, rowMatchesRemove, List.mem_filter, h]
    · simp [clearAll, List.mem_filter, h]

/-- Witness for C10's theorem: owner `2`'s row survives both owner `1`'s
targeted remove and owner `1`'s clear-all over a two-owner table. -/
theorem delete_ops_frame_witness :
    (rowOwn2 ∈ (removeFromWatchlist [rowOwn1, rowOwn2] 1 10).1 ↔
      rowOwn2 ∈ [rowOwn1, rowOwn2]) ∧
    (rowOwn2 ∈ (clearAll [rowOwn1, rowOwn2] 1).1 ↔
      rowOwn2 ∈ [rowOwn1, rowOwn2]) :=
  (delete_ops_frame [rowOwn1, rowOwn2] 1 10).2.2.2.2 rowOwn2 (by decide)
